import Mathlib

/-!
Shallow embedding of the 6-DOF robot-arm control system
(`RobotController.js`, `SafetyMonitor.js`, `Kinematics`, `MotionPlanner`).

The controller / safety-monitor state machine works on exact rationals
(the source's floating-point literals are all decimal, hence exactly
representable), so those definitions are executable.  The kinematics and
trajectory-planner code is trigonometric floating-point code; it is
embedded over `ℝ`.

Concurrency note: the JS system runs three timers (control loop, safety
check, status broadcast).  Stateful methods are modelled as explicit
state transformers on a `System` record; the safety-check cadence and the
`await`-for-convergence loops (which only observe the concurrently
evolving `currentJoints`) are outside the sequential model.  The
`Math.random()` sample drawn by `checkCollision` is passed in explicitly
as a parameter `r ∈ [0,1)`.
-/

namespace RobotArm

/-- Per-joint limit entry of the safety monitor: `{ min, max, margin }`. -/
structure JointLimit where
  min : ℚ
  max : ℚ
  margin : ℚ
deriving DecidableEq

/-- `SafetyMonitor.jointLimits` (radians). -/
def jointLimits : Fin 6 → JointLimit :=
  ![⟨-2.97, 2.97, 0.05⟩, ⟨-2.27, 2.27, 0.05⟩, ⟨-2.97, 2.97, 0.05⟩,
    ⟨-3.05, 3.05, 0.05⟩, ⟨-2.27, 2.27, 0.05⟩, ⟨-6.28, 6.28, 0.05⟩]

/-- Per-joint hard limit of the controller: `JOINT_LIMITS` entries `{ min, max }`. -/
structure HardLimit where
  min : ℚ
  max : ℚ
deriving DecidableEq

/-- `RobotController`'s `JOINT_LIMITS` table (radians). -/
def JOINT_LIMITS : Fin 6 → HardLimit :=
  ![⟨-2.97, 2.97⟩, ⟨-2.27, 2.27⟩, ⟨-2.97, 2.97⟩,
    ⟨-3.05, 3.05⟩, ⟨-2.27, 2.27⟩, ⟨-6.28, 6.28⟩]

/-- An axis range of `SafetyMonitor.workspaceLimits` (mm). -/
structure AxisRange where
  min : ℚ
  max : ℚ
deriving DecidableEq

/-- `workspaceLimits.x`. -/
def workspaceX : AxisRange := ⟨-400, 400⟩

/-- `workspaceLimits.y`. -/
def workspaceY : AxisRange := ⟨-400, 400⟩

/-- `workspaceLimits.z`. -/
def workspaceZ : AxisRange := ⟨0, 600⟩

/-- The controller's `endEffectorPose` record `{x, y, z, rx, ry, rz}`. -/
structure EEPose where
  x : ℚ
  y : ℚ
  z : ℚ
  rx : ℚ
  ry : ℚ
  rz : ℚ
deriving DecidableEq

/-- One entry of `safetyStatus.limitViolations`
(`{ joint, value, limit: 'min'|'max', safeValue }`, `joint` 1-based). -/
structure Violation where
  joint : ℕ
  value : ℚ
  limit : String
  safeValue : ℚ
deriving DecidableEq

/-- Events emitted through the `EventEmitter` interface (`this.emit(...)`);
the model keeps an append-only log of them. -/
inductive Event where
  | warning (wtype : String)
  | protectiveStop (reason : String)
  | emergencyStopEvent (reason : String)
  | collision
deriving DecidableEq

/-- `RobotController` mutable state relevant to the claims. -/
structure CtrlState where
  currentJoints : Fin 6 → ℚ
  targetJoints : Fin 6 → ℚ
  isMoving : Bool
  endEffectorPose : EEPose

/-- `SafetyMonitor.safetyStatus`. -/
structure SafetyStatus where
  isActive : Bool
  emergencyStopped : Bool
  limitViolations : List Violation
  collisionDetected : Bool
  lastCheckTime : Int

/-- Combined state: the controller, the supervisor's status, and the event log. -/
structure System where
  ctrl : CtrlState
  safety : SafetyStatus
  events : List Event

/-- The state right after both constructors run (joints zeroed, flags clear,
safety active). -/
def initialSystem : System :=
  { ctrl := { currentJoints := fun _ => 0, targetJoints := fun _ => 0,
              isMoving := false, endEffectorPose := ⟨0, 0, 0, 0, 0, 0⟩ },
    safety := { isActive := true, emergencyStopped := false, limitViolations := [],
                collisionDetected := false, lastCheckTime := 0 },
    events := [] }

namespace RobotController

/-- `RobotController.emergencyStop()`: `targetJoints = [...currentJoints]`,
`isMoving = false`.  (The EtherCAT quick-stop SDO writes go to the external
transport and carry no model state.) -/
def emergencyStop (s : System) : System :=
  { s with ctrl := { s.ctrl with targetJoints := s.ctrl.currentJoints, isMoving := false } }

/-- `RobotController.checkJointLimits(jointIndex, angle)`:
`angle >= limits.min && angle <= limits.max`. -/
def checkJointLimits (jointIndex : Fin 6) (angle : ℚ) : Bool :=
  decide ((JOINT_LIMITS jointIndex).min ≤ angle) && decide (angle ≤ (JOINT_LIMITS jointIndex).max)

/-- `RobotController.moveJoint(jointIndex, targetAngle, speed)` — the synchronous
part: the limit check throws (`Except.error`) before any mutation; on success the
target entry is set and `isMoving` raised.  The subsequent
`await waitForMovementComplete()` and the final `isMoving = false` happen while the
concurrent control loop moves `currentJoints` and are outside this sequential model. -/
def moveJoint (jointIndex : Fin 6) (targetAngle : ℚ) (s : System) :
    Except String Unit × System :=
  if !checkJointLimits jointIndex targetAngle then
    (Except.error "target angle exceeds limits", s)
  else
    (Except.ok (),
      { s with ctrl := { s.ctrl with
          targetJoints := Function.update s.ctrl.targetJoints jointIndex targetAngle,
          isMoving := true } })

/-- `RobotController.moveJoints(targetJoints, speed)` — the synchronous part:
all six limit checks run (and throw) before `this.targetJoints = [...targetJoints]`
and `isMoving = true`; wait/convergence as in `moveJoint`. -/
def moveJoints (targetJoints : Fin 6 → ℚ) (s : System) :
    Except String Unit × System :=
  if (List.finRange 6).all (fun i => checkJointLimits i (targetJoints i)) then
    (Except.ok (),
      { s with ctrl := { s.ctrl with targetJoints := targetJoints, isMoving := true } })
  else
    (Except.error "target angle exceeds limits", s)

end RobotController

namespace SafetyMonitor

/-- `SafetyMonitor.triggerProtectiveStop(reason)`: freezes the controller's
target to its current joints (`targetJoints = [...currentJoints]`) and emits a
`protective-stop` event carrying the reason. -/
def triggerProtectiveStop (reason : String) (s : System) : System :=
  { s with
    ctrl := { s.ctrl with targetJoints := s.ctrl.currentJoints },
    events := s.events ++ [Event.protectiveStop reason] }

/-- `SafetyMonitor.triggerEmergencyStop(reason)`: sets `emergencyStopped`,
calls `robotController.emergencyStop()` and emits an `emergency-stop` event. -/
def triggerEmergencyStop (reason : String) (s : System) : System :=
  let s1 := { s with safety := { s.safety with emergencyStopped := true } }
  let s2 := RobotController.emergencyStop s1
  { s2 with events := s2.events ++ [Event.emergencyStopEvent reason] }

/-- The violation record pushed by the loop body of
`SafetyMonitor.checkJointLimits` for index `i`, when joint `i` lies outside
the soft band `[min + margin, max - margin]`. -/
def jointViolation (joints : Fin 6 → ℚ) (i : Fin 6) : Option Violation :=
  let limit := jointLimits i
  let safeMin := limit.min + limit.margin
  let safeMax := limit.max - limit.margin
  if joints i < safeMin ∨ joints i > safeMax then
    some { joint := (i : ℕ) + 1, value := joints i,
           limit := if joints i < safeMin then "min" else "max",
           safeValue := if joints i < safeMin then safeMin else safeMax }
  else none

/-- `SafetyMonitor.checkJointLimits(joints)`: collects the per-joint soft-band
violations; when non-empty it stores them in `safetyStatus.limitViolations`,
triggers a protective stop and emits a `joint-limit` warning; returns
`violations.length === 0`. -/
def checkJointLimits (joints : Fin 6 → ℚ) (s : System) : Bool × System :=
  let violations := (List.finRange 6).filterMap (jointViolation joints)
  if violations.isEmpty then (true, s)
  else
    let s1 := { s with safety := { s.safety with limitViolations := violations } }
    let s2 := triggerProtectiveStop "Joint limit violation" s1
    (false, { s2 with events := s2.events ++ [Event.warning "joint-limit"] })

/-- `SafetyMonitor.checkWorkspaceLimits(pose)`: a violation is recorded when
any of x/y/z leaves `workspaceLimits`; on violation a protective stop is
triggered and a `workspace-limit` warning emitted.  (The violation list is a
local only inspected for emptiness, so it is modelled by the disjunction.) -/
def checkWorkspaceLimits (pose : EEPose) (s : System) : Bool × System :=
  if pose.x < workspaceX.min ∨ pose.x > workspaceX.max ∨
     pose.y < workspaceY.min ∨ pose.y > workspaceY.max ∨
     pose.z < workspaceZ.min ∨ pose.z > workspaceZ.max then
    let s1 := triggerProtectiveStop "Workspace limit violation" s
    (false, { s1 with events := s1.events ++ [Event.warning "workspace-limit"] })
  else (true, s)

/-- `SafetyMonitor.checkCollision()`: the source draws
`collisionProbability = Math.random() * 0.001` and compares it with `0.0005`;
the random sample `r ∈ [0,1)` is made explicit.  On detection it sets
`collisionDetected`, triggers an emergency stop and emits a `collision` event. -/
def checkCollision (r : ℚ) (s : System) : Bool × System :=
  if r * 0.001 > 0.0005 then
    let s1 := { s with safety := { s.safety with collisionDetected := true } }
    let s2 := triggerEmergencyStop "Collision detected" s1
    (true, { s2 with events := s2.events ++ [Event.collision] })
  else (false, s)

/-- `SafetyMonitor.performSafetyCheck()`: early-returns when monitoring is
inactive; otherwise runs the joint-limit, workspace and collision checks on
snapshots of the controller state and stamps `lastCheckTime`.
(`r` is `checkCollision`'s random sample, `now` the current time.) -/
def performSafetyCheck (r : ℚ) (now : Int) (s : System) : System :=
  if !s.safety.isActive then s
  else
    let joints := s.ctrl.currentJoints
    let pose := s.ctrl.endEffectorPose
    let s1 := (checkJointLimits joints s).2
    let s2 := (checkWorkspaceLimits pose s1).2
    let s3 := (checkCollision r s2).2
    { s3 with safety := { s3.safety with lastCheckTime := now } }

/-- Body of the per-joint loop of `SafetyMonitor.calculateSafeSpeed`. -/
def safeSpeedStep (targetJoints : Fin 6 → ℚ) (acc : ℚ) (i : Fin 6) : ℚ :=
  let limit := jointLimits i
  let distanceToMin := |targetJoints i - limit.min|
  let distanceToMax := |targetJoints i - limit.max|
  let minDistance := min distanceToMin distanceToMax
  if minDistance < 0.5 then min acc (minDistance / 0.5) else acc

/-- `SafetyMonitor.calculateSafeSpeed(targetJoints, currentJoints, desiredSpeed)`:
starts `maxSpeedRatio` at 1 and, for each joint whose target sits within 0.5 rad
of a hard limit, lowers it to `minDistance / 0.5`; returns
`desiredSpeed * maxSpeedRatio`.  (`currentJoints` is accepted but unused,
exactly as in the source.) -/
def calculateSafeSpeed (targetJoints currentJoints : Fin 6 → ℚ)
    (desiredSpeed : ℚ) : ℚ :=
  desiredSpeed * (List.finRange 6).foldl (safeSpeedStep targetJoints) 1

end SafetyMonitor

namespace Kinematics

/-- One DH parameter record `{a, alpha, d, theta}`. -/
structure DHParam where
  a : ℝ
  alpha : ℝ
  d : ℝ
  theta : ℝ

/-- `DH_PARAMS` (Estun S3-60 modified DH parameters, metres/radians). -/
noncomputable def DH_PARAMS : Fin 6 → DHParam :=
  ![⟨0, 0, 0.267, 0⟩, ⟨0.290, -(Real.pi / 2), 0, 0⟩, ⟨0, Real.pi / 2, 0.342, 0⟩,
    ⟨0, -(Real.pi / 2), 0, 0⟩, ⟨0, Real.pi / 2, 0.342, 0⟩, ⟨0, -(Real.pi / 2), 0, 0⟩]

/-- A target pose `{position: {x, y, z}, orientation: {rx, ry, rz}}`, flattened. -/
structure Pose where
  x : ℝ
  y : ℝ
  z : ℝ
  rx : ℝ
  ry : ℝ
  rz : ℝ

/-- A Cartesian point (the wrist-center position). -/
structure Vec3 where
  x : ℝ
  y : ℝ
  z : ℝ

/-- An Euler-angle triple extracted from a rotation matrix. -/
structure Euler where
  rx : ℝ
  ry : ℝ
  rz : ℝ

/-- JavaScript's `Math.atan2(y, x)` (quadrant-aware arctangent). -/
noncomputable def atan2 (y x : ℝ) : ℝ :=
  if 0 < x then Real.arctan (y / x)
  else if x < 0 ∧ 0 ≤ y then Real.arctan (y / x) + Real.pi
  else if x < 0 ∧ y < 0 then Real.arctan (y / x) - Real.pi
  else if x = 0 ∧ 0 < y then Real.pi / 2
  else if x = 0 ∧ y < 0 then -(Real.pi / 2)
  else 0

/-- `buildDHMatrix(a, alpha, d, theta)`: the 4×4 homogeneous transform of one
link in the modified DH convention. -/
noncomputable def buildDHMatrix (a alpha d theta : ℝ) : Matrix (Fin 4) (Fin 4) ℝ :=
  let ct := Real.cos theta
  let st := Real.sin theta
  let ca := Real.cos alpha
  let sa := Real.sin alpha
  !![ct, -st, 0, a;
     st * ca, ct * ca, -sa, -d * sa;
     st * sa, ct * sa, ca, d * ca;
     0, 0, 0, 1]

/-- The `Rx` factor of `poseToMatrix`. -/
noncomputable def rotX (rx : ℝ) : Matrix (Fin 3) (Fin 3) ℝ :=
  !![1, 0, 0;
     0, Real.cos rx, -Real.sin rx;
     0, Real.sin rx, Real.cos rx]

/-- The `Ry` factor of `poseToMatrix`. -/
noncomputable def rotY (ry : ℝ) : Matrix (Fin 3) (Fin 3) ℝ :=
  !![Real.cos ry, 0, Real.sin ry;
     0, 1, 0;
     -Real.sin ry, 0, Real.cos ry]

/-- The `Rz` factor of `poseToMatrix`. -/
noncomputable def rotZ (rz : ℝ) : Matrix (Fin 3) (Fin 3) ℝ :=
  !![Real.cos rz, -Real.sin rz, 0;
     Real.sin rz, Real.cos rz, 0;
     0, 0, 1]

/-- `poseToMatrix(pose)`: rotation `R = Rz * Ry * Rx` (XYZ Euler angles)
embedded in a homogeneous transform with the position in the last column. -/
noncomputable def poseToMatrix (pose : Pose) : Matrix (Fin 4) (Fin 4) ℝ :=
  let R := rotZ pose.rz * rotY pose.ry * rotX pose.rx
  !![R 0 0, R 0 1, R 0 2, pose.x;
     R 1 0, R 1 1, R 1 2, pose.y;
     R 2 0, R 2 1, R 2 2, pose.z;
     0, 0, 0, 1]

/-- `calculateWristCenter(targetMatrix)`: end-effector position minus `d6`
times the tool z-axis column. -/
noncomputable def calculateWristCenter (targetMatrix : Matrix (Fin 4) (Fin 4) ℝ) : Vec3 :=
  let d6 := (DH_PARAMS 5).d
  { x := targetMatrix 0 3 - d6 * targetMatrix 0 2,
    y := targetMatrix 1 3 - d6 * targetMatrix 1 2,
    z := targetMatrix 2 3 - d6 * targetMatrix 2 2 }

/-- `solveFirstThreeJoints(wristCenter)`: two base-rotation branches
(`θ1`, `θ1 + π`); on each, the elbow argument `D`; a branch with `|D| > 1`
contributes nothing (`continue`); otherwise the two elbow branches
`±θ3offset` each yield `[θ1, θ2, θ3, 0, 0, 0]`. -/
noncomputable def solveFirstThreeJoints (wristCenter : Vec3) : List (Fin 6 → ℝ) :=
  let theta1Base := atan2 wristCenter.y wristCenter.x
  [theta1Base, theta1Base + Real.pi].flatMap fun theta1 =>
    let r := Real.sqrt (wristCenter.x * wristCenter.x + wristCenter.y * wristCenter.y)
    let zRel := wristCenter.z - (DH_PARAMS 0).d
    let a2 := (DH_PARAMS 1).a
    let d4 := (DH_PARAMS 2).d
    let D := (r * r + zRel * zRel - a2 * a2 - d4 * d4) / (2 * a2 * d4)
    if 1 < |D| then []
    else
      let theta3Offset := atan2 (Real.sqrt (1 - D * D)) D
      [theta3Offset, -theta3Offset].map fun theta3 =>
        let k1 := a2 + d4 * Real.cos theta3
        let k2 := d4 * Real.sin theta3
        let theta2Base := atan2 zRel r
        let theta2Offset := atan2 k2 k1
        ![theta1, theta2Base - theta2Offset, theta3, 0, 0, 0]

/-- `extractEulerAnglesFromRotation(R)` with the gimbal-lock fallback at
`|r31| ≥ 0.99999`. -/
noncomputable def extractEulerAnglesFromRotation (R : Matrix (Fin 3) (Fin 3) ℝ) : Euler :=
  let r11 := R 0 0
  let r12 := R 0 1
  let r13 := R 0 2
  let r21 := R 1 0
  let r31 := R 2 0
  let r32 := R 2 1
  let r33 := R 2 2
  if |r31| < 0.99999 then
    let ry := -Real.arcsin r31
    let cry := Real.cos ry
    { rx := atan2 (r32 / cry) (r33 / cry), ry := ry, rz := atan2 (r21 / cry) (r11 / cry) }
  else if r31 < 0 then
    { rx := 0, ry := Real.pi / 2, rz := atan2 r12 r13 }
  else
    { rx := 0, ry := -(Real.pi / 2), rz := atan2 (-r12) (-r13) }

/-- `solveLastThreeJoints(baseSolution, targetMatrix)`: the residual rotation
`R36` of `T36 = (T03)⁻¹ * target` decomposed into Euler angles for joints 4–6. -/
noncomputable def solveLastThreeJoints (baseSolution : Fin 6 → ℝ)
    (targetMatrix : Matrix (Fin 4) (Fin 4) ℝ) : List (Fin 6 → ℝ) :=
  let T03 :=
    buildDHMatrix (DH_PARAMS 0).a (DH_PARAMS 0).alpha (DH_PARAMS 0).d
        ((DH_PARAMS 0).theta + baseSolution 0) *
      buildDHMatrix (DH_PARAMS 1).a (DH_PARAMS 1).alpha (DH_PARAMS 1).d
        ((DH_PARAMS 1).theta + baseSolution 1) *
      buildDHMatrix (DH_PARAMS 2).a (DH_PARAMS 2).alpha (DH_PARAMS 2).d
        ((DH_PARAMS 2).theta + baseSolution 2)
  let T36 := T03⁻¹ * targetMatrix
  let e := extractEulerAnglesFromRotation
    (Matrix.of fun i j : Fin 3 => T36 i.castSucc j.castSucc)
  [![baseSolution 0, baseSolution 1, baseSolution 2, e.rx, e.ry, e.rz]]

/-- `filterValidSolutions(solutions)`: drops every candidate exceeding 3.5 rad
in magnitude on some joint (the source comments this bound as "±200°"). -/
noncomputable def filterValidSolutions : List (Fin 6 → ℝ) → List (Fin 6 → ℝ)
  | [] => []
  | solution :: rest =>
    if ∃ i : Fin 6, 3.5 < |solution i| then filterValidSolutions rest
    else solution :: filterValidSolutions rest

/-- `inverseKinematics(targetPose)`: wrist-center decomposition, position
sub-problem, orientation sub-problem, then the validity filter. -/
noncomputable def inverseKinematics (targetPose : Pose) : List (Fin 6 → ℝ) :=
  let targetMatrix := poseToMatrix targetPose
  let wristCenter := calculateWristCenter targetMatrix
  let baseSolutions := solveFirstThreeJoints wristCenter
  let solutions := baseSolutions.flatMap fun baseSolution =>
    solveLastThreeJoints baseSolution targetMatrix
  filterValidSolutions solutions

/-- Sum of the link-length constants (`a` and `d` columns) of the DH table. -/
noncomputable def sumLinkLengths : ℝ :=
  ∑ i : Fin 6, ((DH_PARAMS i).a + (DH_PARAMS i).d)

end Kinematics

namespace SafetyMonitor

/-- `SafetyMonitor.isNearSingularity(joints)`: wrist band
`||j5| - π/2| < 0.1`, then shoulder proxy `sqrt(j1² + j2²) < 0.1`. -/
noncomputable def isNearSingularity (joints : Fin 6 → ℝ) : Bool :=
  if abs (abs (joints 4) - Real.pi / 2) < 0.1 then true
  else if Real.sqrt (joints 0 ^ 2 + joints 1 ^ 2) < 0.1 then true
  else false

/-- `SafetyMonitor.isTargetSafe(targetJoints)`: returns `false` as soon as some
joint leaves its hard limits, otherwise `!isNearSingularity(targetJoints)`. -/
noncomputable def isTargetSafe (targetJoints : Fin 6 → ℝ) : Bool :=
  if ∃ i : Fin 6, targetJoints i < ((jointLimits i).min : ℝ) ∨
      ((jointLimits i).max : ℝ) < targetJoints i then false
  else !isNearSingularity targetJoints

end SafetyMonitor

namespace MotionPlanner

/-- `MotionPlanner.homePosition = [0, 0, Math.PI/2, 0, Math.PI/2, 0]`. -/
noncomputable def homePosition : Fin 6 → ℝ :=
  ![0, 0, Real.pi / 2, 0, Real.pi / 2, 0]

/-- `quinticPolynomial(q0, qf, tf, v0, vf, a0, af)`: solves the 6×6 boundary
system `M · c = b` and returns the trajectory function; evaluation clamps to
`q0` for `t ≤ 0` and to `qf` for `t ≥ tf`. -/
noncomputable def quinticPolynomial (q0 qf tf v0 vf a0 af : ℝ) : ℝ → ℝ :=
  let M : Matrix (Fin 6) (Fin 6) ℝ :=
    !![1, 0, 0, 0, 0, 0;
       0, 1, 0, 0, 0, 0;
       0, 0, 2, 0, 0, 0;
       1, tf, tf * tf, tf * tf * tf, tf * tf * tf * tf, tf * tf * tf * tf * tf;
       0, 1, 2 * tf, 3 * (tf * tf), 4 * (tf * tf * tf), 5 * (tf * tf * tf * tf);
       0, 0, 2, 6 * tf, 12 * (tf * tf), 20 * (tf * tf * tf)]
  let b : Fin 6 → ℝ := ![q0, v0, a0, qf, vf, af]
  let coeffs := M⁻¹.mulVec b
  fun t =>
    if t ≤ 0 then q0
    else if tf ≤ t then qf
    else ∑ i : Fin 6, coeffs i * t ^ (i : ℕ)

end MotionPlanner

/-- The per-joint factor the spec's sentence describes: `min(1, d_i / 0.5)`,
with `d_i` the distance from the target joint value to the nearer hard limit. -/
def jointSpeedFactor (targetJoints : Fin 6 → ℚ) (i : Fin 6) : ℚ :=
  min 1
    (min |targetJoints i - (jointLimits i).min| |targetJoints i - (jointLimits i).max| / 0.5)

/-- Claim-side formula for `calculateSafeSpeed`: the desired speed times the
minimum over the 6 joints of `jointSpeedFactor`. -/
def calculateSafeSpeedSpec (targetJoints : Fin 6 → ℚ) (desiredSpeed : ℚ) : ℚ :=
  desiredSpeed *
    min (jointSpeedFactor targetJoints 0)
      (min (jointSpeedFactor targetJoints 1)
        (min (jointSpeedFactor targetJoints 2)
          (min (jointSpeedFactor targetJoints 3)
            (min (jointSpeedFactor targetJoints 4) (jointSpeedFactor targetJoints 5)))))

/-- Claim C1: for every controller state, `emergencyStop()` results, immediately
upon return, in `targetJoints` equal to `currentJoints` componentwise for all 6
joints and `isMoving = false`, regardless of the safety supervisor's state
(the supervisor's status is untouched and arbitrary). -/
theorem emergencyStop_freezes_target (s : System) :
    (∀ i : Fin 6,
      (RobotController.emergencyStop s).ctrl.targetJoints i = s.ctrl.currentJoints i) ∧
    (RobotController.emergencyStop s).ctrl.isMoving = false ∧
    (RobotController.emergencyStop s).ctrl.currentJoints = s.ctrl.currentJoints ∧
    (RobotController.emergencyStop s).safety = s.safety :=
  ⟨fun _ => rfl, rfl, rfl, rfl⟩

/-- Claim C2: for every 6-vector with some component outside the soft band
`[min + margin, max - margin]` of its joint, `checkJointLimits` records that
joint in `limitViolations` and returns `false`, and the triggered protective
stop freezes `targetJoints` to a copy of `currentJoints` with the reason
recorded as a `protective-stop` event — a graceful hold, not a power cut
(`emergencyStopped` and `isMoving` are untouched). -/
theorem checkJointLimits_protective_hold (s : System) (joints : Fin 6 → ℚ) (i : Fin 6)
    (h : joints i < (jointLimits i).min + (jointLimits i).margin ∨
         joints i > (jointLimits i).max - (jointLimits i).margin) :
    (SafetyMonitor.checkJointLimits joints s).1 = false ∧
    (∃ v ∈ (SafetyMonitor.checkJointLimits joints s).2.safety.limitViolations,
        v.joint = (i : ℕ) + 1) ∧
    (SafetyMonitor.checkJointLimits joints s).2.ctrl.targetJoints = s.ctrl.currentJoints ∧
    Event.protectiveStop "Joint limit violation"
      ∈ (SafetyMonitor.checkJointLimits joints s).2.events ∧
    (SafetyMonitor.checkJointLimits joints s).2.safety.emergencyStopped
      = s.safety.emergencyStopped ∧
    (SafetyMonitor.checkJointLimits joints s).2.ctrl.isMoving = s.ctrl.isMoving := by
  have hvsome : ∃ v, SafetyMonitor.jointViolation joints i = some v ∧ v.joint = (i : ℕ) + 1 := by
    simp only [SafetyMonitor.jointViolation]
    rw [if_pos h]
    exact ⟨_, rfl, rfl⟩
  obtain ⟨v, hv, hvj⟩ := hvsome
  have hvmem : v ∈ (List.finRange 6).filterMap (SafetyMonitor.jointViolation joints) :=
    List.mem_filterMap.2 ⟨i, List.mem_finRange i, hv⟩
  have hVne : ((List.finRange 6).filterMap (SafetyMonitor.jointViolation joints)).isEmpty
      = false := by
    rcases hVe : (List.finRange 6).filterMap (SafetyMonitor.jointViolation joints) with _ | ⟨a, t⟩
    · rw [hVe] at hvmem
      exact absurd hvmem (List.not_mem_nil v)
    · rfl
  simp only [SafetyMonitor.checkJointLimits, SafetyMonitor.triggerProtectiveStop, hVne,
    Bool.false_eq_true, if_false]
  refine ⟨?_, ⟨v, hvmem, hvj⟩, ?_, ?_, ?_, ?_⟩ <;> simp [List.mem_append]

/-- Witness for C2 at joint 1 pushed to 3 rad (soft max is 2.92) from the
initial state. -/
theorem checkJointLimits_protective_hold_witness :
    (SafetyMonitor.checkJointLimits ![3, 0, 0, 0, 0, 0] initialSystem).1 = false ∧
    (∃ v ∈ (SafetyMonitor.checkJointLimits ![3, 0, 0, 0, 0, 0]
        initialSystem).2.safety.limitViolations, v.joint = ((0 : Fin 6) : ℕ) + 1) ∧
    (SafetyMonitor.checkJointLimits ![3, 0, 0, 0, 0, 0] initialSystem).2.ctrl.targetJoints
      = initialSystem.ctrl.currentJoints ∧
    Event.protectiveStop "Joint limit violation"
      ∈ (SafetyMonitor.checkJointLimits ![3, 0, 0, 0, 0, 0] initialSystem).2.events ∧
    (SafetyMonitor.checkJointLimits ![3, 0, 0, 0, 0, 0]
        initialSystem).2.safety.emergencyStopped = initialSystem.safety.emergencyStopped ∧
    (SafetyMonitor.checkJointLimits ![3, 0, 0, 0, 0, 0] initialSystem).2.ctrl.isMoving
      = initialSystem.ctrl.isMoving :=
  checkJointLimits_protective_hold initialSystem ![3, 0, 0, 0, 0, 0] 0
    (by norm_num [jointLimits])

/-- Claim C3: a `moveJoint` call whose angle is outside that joint's hard
limits, and a `moveJoints` call with any of the 6 targets outside its joint's
hard limits, both throw a synchronous error and mutate no controller state
(the returned state is exactly the input state). -/
theorem move_reject_no_mutation (s : System) (jointIndex : Fin 6) (targetAngle : ℚ)
    (targets : Fin 6 → ℚ)
    (h1 : targetAngle < (JOINT_LIMITS jointIndex).min ∨
          (JOINT_LIMITS jointIndex).max < targetAngle)
    (h2 : ∃ i : Fin 6, targets i < (JOINT_LIMITS i).min ∨ (JOINT_LIMITS i).max < targets i) :
    RobotController.moveJoint jointIndex targetAngle s
      = (Except.error "target angle exceeds limits", s) ∧
    RobotController.moveJoints targets s
      = (Except.error "target angle exceeds limits", s) := by
  have key : ∀ (j : Fin 6) (a : ℚ),
      a < (JOINT_LIMITS j).min ∨ (JOINT_LIMITS j).max < a →
      RobotController.checkJointLimits j a = false := by
    intro j a hja
    simp only [RobotController.checkJointLimits, Bool.and_eq_false_iff,
      decide_eq_false_iff_not, not_le]
    exact hja
  constructor
  · simp only [RobotController.moveJoint, key jointIndex targetAngle h1, Bool.not_false,
      if_true]
  · obtain ⟨i, hi⟩ := h2
    have hall : (List.finRange 6).all (fun i => RobotController.checkJointLimits i (targets i))
        = false := by
      refine List.all_eq_false.2 ⟨i, List.mem_finRange i, ?_⟩
      simp [key i (targets i) hi]
    simp only [RobotController.moveJoints, hall, Bool.false_eq_true, if_false]

/-- Witness for C3: joint 1 commanded to 3 rad (hard max 2.97) from the
initial state; both entry points reject without mutation. -/
theorem move_reject_no_mutation_witness :
    RobotController.moveJoint 0 3 initialSystem
      = (Except.error "target angle exceeds limits", initialSystem) ∧
    RobotController.moveJoints ![3, 0, 0, 0, 0, 0] initialSystem
      = (Except.error "target angle exceeds limits", initialSystem) :=
  move_reject_no_mutation initialSystem 0 3 ![3, 0, 0, 0, 0, 0]
    (by norm_num [JOINT_LIMITS]) ⟨0, by norm_num [JOINT_LIMITS]⟩

/-- Claim C6: `checkCollision` is a function of the random sample alone and
not of any robot state; two runs from identical states can differ; and from
every active state with all joints inside the soft limits and the end effector
inside the workspace box there is a sample for which the periodic check
detects a collision and executes an emergency stop, with no external signal
involved. -/
theorem collision_random_independent (s : System) (now : Int)
    (hactive : s.safety.isActive = true)
    (hjoints : ∀ i : Fin 6,
      (jointLimits i).min + (jointLimits i).margin ≤ s.ctrl.currentJoints i ∧
      s.ctrl.currentJoints i ≤ (jointLimits i).max - (jointLimits i).margin)
    (hpose : workspaceX.min ≤ s.ctrl.endEffectorPose.x ∧
             s.ctrl.endEffectorPose.x ≤ workspaceX.max ∧
             workspaceY.min ≤ s.ctrl.endEffectorPose.y ∧
             s.ctrl.endEffectorPose.y ≤ workspaceY.max ∧
             workspaceZ.min ≤ s.ctrl.endEffectorPose.z ∧
             s.ctrl.endEffectorPose.z ≤ workspaceZ.max) :
    (∀ (r : ℚ) (s1 s2 : System),
        (SafetyMonitor.checkCollision r s1).1 = (SafetyMonitor.checkCollision r s2).1) ∧
    (∃ r1 r2 : ℚ, 0 ≤ r1 ∧ r1 < 1 ∧ 0 ≤ r2 ∧ r2 < 1 ∧
        (SafetyMonitor.checkCollision r1 s).1 = true ∧
        (SafetyMonitor.checkCollision r2 s).1 = false) ∧
    (∃ r : ℚ, 0 ≤ r ∧ r < 1 ∧
        (SafetyMonitor.performSafetyCheck r now s).safety.collisionDetected = true ∧
        (SafetyMonitor.performSafetyCheck r now s).safety.emergencyStopped = true ∧
        (∀ i : Fin 6, (SafetyMonitor.performSafetyCheck r now s).ctrl.targetJoints i
            = s.ctrl.currentJoints i) ∧
        (SafetyMonitor.performSafetyCheck r now s).ctrl.isMoving = false) := by
  have hjl : SafetyMonitor.checkJointLimits s.ctrl.currentJoints s = (true, s) := by
    have hfm : (List.finRange 6).filterMap (SafetyMonitor.jointViolation s.ctrl.currentJoints)
        = [] := by
      rw [List.filterMap_eq_nil_iff]
      intro i _
      simp only [SafetyMonitor.jointViolation]
      rw [if_neg (by push_neg; exact ⟨(hjoints i).1, (hjoints i).2⟩)]
    simp [SafetyMonitor.checkJointLimits, hfm]
  have hws : SafetyMonitor.checkWorkspaceLimits s.ctrl.endEffectorPose s = (true, s) := by
    obtain ⟨h1, h2, h3, h4, h5, h6⟩ := hpose
    simp only [SafetyMonitor.checkWorkspaceLimits]
    rw [if_neg (by push_neg; exact ⟨h1, h2, h3, h4, h5, h6⟩)]
  have hcct : ∀ t : System, SafetyMonitor.checkCollision 0.6 t = (true,
      { ctrl := { t.ctrl with targetJoints := t.ctrl.currentJoints, isMoving := false },
        safety := { t.safety with collisionDetected := true, emergencyStopped := true },
        events := (t.events ++ [Event.emergencyStopEvent "Collision detected"])
          ++ [Event.collision] }) := by
    intro t
    simp only [SafetyMonitor.checkCollision, SafetyMonitor.triggerEmergencyStop,
      RobotController.emergencyStop]
    rw [if_pos (by norm_num)]
  have hccf : SafetyMonitor.checkCollision 0 s = (false, s) := by
    simp only [SafetyMonitor.checkCollision]
    rw [if_neg (by norm_num)]
  have hps : SafetyMonitor.performSafetyCheck 0.6 now s =
      { ctrl := { s.ctrl with targetJoints := s.ctrl.currentJoints, isMoving := false },
        safety := { s.safety with collisionDetected := true, emergencyStopped := true, lastCheckTime := now },
        events := (s.events ++ [Event.emergencyStopEvent "Collision detected"])
          ++ [Event.collision] } := by
    simp only [SafetyMonitor.performSafetyCheck, hactive, Bool.not_true, Bool.false_eq_true,
      if_false, hjl, hws, hcct]
  refine ⟨?_, ⟨0.6, 0, by norm_num, by norm_num, by norm_num, by norm_num, ?_, ?_⟩,
    ⟨0.6, by norm_num, by norm_num, ?_, ?_, ?_, ?_⟩⟩
  · intro r s1 s2
    simp only [SafetyMonitor.checkCollision]
    split_ifs <;> rfl
  · rw [hcct s]
  · rw [hccf]
  · rw [hps]
  · rw [hps]
  · intro i
    rw [hps]
  · rw [hps]

/-- Witness for C6: from the constructor state (all joints at 0, pose at the
origin, monitoring active) the sample 0.6 yields a detected collision and an
executed emergency stop. -/
theorem collision_random_independent_witness :
    ∃ r : ℚ, 0 ≤ r ∧ r < 1 ∧
      (SafetyMonitor.performSafetyCheck r 0 initialSystem).safety.collisionDetected = true ∧
      (SafetyMonitor.performSafetyCheck r 0 initialSystem).safety.emergencyStopped = true ∧
      (∀ i : Fin 6, (SafetyMonitor.performSafetyCheck r 0 initialSystem).ctrl.targetJoints i
          = initialSystem.ctrl.currentJoints i) ∧
      (SafetyMonitor.performSafetyCheck r 0 initialSystem).ctrl.isMoving = false :=
  (collision_random_independent initialSystem 0 rfl
    (by intro i; fin_cases i <;> constructor <;> norm_num [jointLimits, initialSystem])
    (by norm_num [initialSystem, workspaceX, workspaceY, workspaceZ])).2.2

lemma jointSpeedFactor_le_one (t : Fin 6 → ℚ) (i : Fin 6) : jointSpeedFactor t i ≤ 1 :=
  min_le_left _ _

lemma jointSpeedFactor_nonneg (t : Fin 6 → ℚ) (i : Fin 6) : 0 ≤ jointSpeedFactor t i :=
  le_min (by norm_num)
    (div_nonneg (le_min (abs_nonneg _) (abs_nonneg _)) (by norm_num))

lemma safeSpeedStep_eq (t : Fin 6 → ℚ) (acc : ℚ) (i : Fin 6) (hacc : acc ≤ 1) :
    SafetyMonitor.safeSpeedStep t acc i = min acc (jointSpeedFactor t i) := by
  simp only [SafetyMonitor.safeSpeedStep, jointSpeedFactor]
  set m := min |t i - (jointLimits i).min| |t i - (jointLimits i).max| with hm
  by_cases h : m < 0.5
  · rw [if_pos h, min_eq_right ((div_le_one (by norm_num)).2 h.le)]
  · rw [if_neg h, min_eq_left ((one_le_div (by norm_num)).2 (not_lt.1 h)),
      min_eq_left hacc]

lemma foldl_safeSpeedStep (t : Fin 6 → ℚ) (l : List (Fin 6)) :
    ∀ acc : ℚ, acc ≤ 1 →
      l.foldl (SafetyMonitor.safeSpeedStep t) acc
        = l.foldl (fun a i => min a (jointSpeedFactor t i)) acc := by
  induction l with
  | nil => intro acc _; rfl
  | cons x xs ih =>
    intro acc hacc
    simp only [List.foldl_cons]
    rw [safeSpeedStep_eq t acc x hacc]
    exact ih _ (le_trans (min_le_left _ _) hacc)

lemma specMin_le (t : Fin 6 → ℚ) (i : Fin 6) :
    min (jointSpeedFactor t 0) (min (jointSpeedFactor t 1) (min (jointSpeedFactor t 2)
      (min (jointSpeedFactor t 3) (min (jointSpeedFactor t 4) (jointSpeedFactor t 5)))))
      ≤ jointSpeedFactor t i := by
  fin_cases i
  · exact min_le_left _ _
  · exact le_trans (min_le_right _ _) (min_le_left _ _)
  · exact le_trans (min_le_right _ _) (le_trans (min_le_right _ _) (min_le_left _ _))
  · exact le_trans (min_le_right _ _) (le_trans (min_le_right _ _)
      (le_trans (min_le_right _ _) (min_le_left _ _)))
  · exact le_trans (min_le_right _ _) (le_trans (min_le_right _ _)
      (le_trans (min_le_right _ _) (le_trans (min_le_right _ _) (min_le_left _ _))))
  · exact le_trans (min_le_right _ _) (le_trans (min_le_right _ _)
      (le_trans (min_le_right _ _) (le_trans (min_le_right _ _) (min_le_right _ _))))

/-- Claim C8: `calculateSafeSpeed` returns `desiredSpeed` times the minimum
over the 6 joints of `min(1, d_i / 0.5)`, where `d_i` is the distance from the
target joint value to the nearer hard limit; in particular it is exactly zero
whenever some target joint sits exactly at a hard limit. -/
theorem calculateSafeSpeed_spec (targetJoints currentJoints : Fin 6 → ℚ)
    (desiredSpeed : ℚ) :
    SafetyMonitor.calculateSafeSpeed targetJoints currentJoints desiredSpeed
      = calculateSafeSpeedSpec targetJoints desiredSpeed ∧
    (∀ i : Fin 6,
      targetJoints i = (jointLimits i).min ∨ targetJoints i = (jointLimits i).max →
      SafetyMonitor.calculateSafeSpeed targetJoints currentJoints desiredSpeed = 0) := by
  have hmain : SafetyMonitor.calculateSafeSpeed targetJoints currentJoints desiredSpeed
      = calculateSafeSpeedSpec targetJoints desiredSpeed := by
    simp only [SafetyMonitor.calculateSafeSpeed, calculateSafeSpeedSpec]
    rw [foldl_safeSpeedStep targetJoints _ 1 le_rfl,
      show (List.finRange 6) = [0, 1, 2, 3, 4, 5] from rfl]
    simp only [List.foldl_cons, List.foldl_nil]
    rw [min_eq_right (jointSpeedFactor_le_one targetJoints 0)]
    simp only [min_assoc]
  refine ⟨hmain, ?_⟩
  intro i hi
  have hzero : jointSpeedFactor targetJoints i = 0 := by
    unfold jointSpeedFactor
    rcases hi with h | h
    · rw [h, sub_self, abs_zero,
        show min (0 : ℚ) |(jointLimits i).min - (jointLimits i).max| = 0 from
          min_eq_left (abs_nonneg _),
        zero_div]
      exact min_eq_right (by norm_num)
    · rw [h, sub_self, abs_zero,
        show min |(jointLimits i).max - (jointLimits i).min| (0 : ℚ) = 0 from
          min_eq_right (abs_nonneg _),
        zero_div]
      exact min_eq_right (by norm_num)
  have hM : min (jointSpeedFactor targetJoints 0) (min (jointSpeedFactor targetJoints 1)
      (min (jointSpeedFactor targetJoints 2) (min (jointSpeedFactor targetJoints 3)
        (min (jointSpeedFactor targetJoints 4) (jointSpeedFactor targetJoints 5))))) = 0 := by
    refine le_antisymm (hzero ▸ specMin_le targetJoints i) ?_
    exact le_min (jointSpeedFactor_nonneg _ 0) (le_min (jointSpeedFactor_nonneg _ 1)
      (le_min (jointSpeedFactor_nonneg _ 2) (le_min (jointSpeedFactor_nonneg _ 3)
        (le_min (jointSpeedFactor_nonneg _ 4) (jointSpeedFactor_nonneg _ 5)))))
  rw [hmain]
  simp only [calculateSafeSpeedSpec, hM, mul_zero]

/-- Witness for C8: joint 1 targeted exactly at its hard minimum yields a safe
speed of exactly zero. -/
theorem calculateSafeSpeed_spec_witness :
    SafetyMonitor.calculateSafeSpeed ![-2.97, 0, 0, 0, 0, 0] (fun _ => 0) 50 = 0 :=
  (calculateSafeSpeed_spec ![-2.97, 0, 0, 0, 0, 0] (fun _ => 0) 50).2 0
    (Or.inl (by norm_num [jointLimits]))

/-- Claim C7: for all boundary data with `tf > 0`, the trajectory function
returned by `quinticPolynomial` evaluates to exactly `q0` at every `t ≤ 0` and
to exactly `qf` at every `t ≥ tf` (evaluation outside `[0, tf]` clamps). -/
theorem quinticPolynomial_clamps (q0 qf tf v0 vf a0 af t : ℝ) (htf : 0 < tf) :
    (t ≤ 0 → MotionPlanner.quinticPolynomial q0 qf tf v0 vf a0 af t = q0) ∧
    (tf ≤ t → MotionPlanner.quinticPolynomial q0 qf tf v0 vf a0 af t = qf) := by
  constructor
  · intro ht
    simp only [MotionPlanner.quinticPolynomial]
    rw [if_pos ht]
  · intro ht
    simp only [MotionPlanner.quinticPolynomial]
    rw [if_neg (by linarith), if_pos ht]

/-- Witness for C7: `q0 = 3`, `qf = 5`, `tf = 1`, evaluated at `t = 0`. -/
theorem quinticPolynomial_clamps_witness :
    MotionPlanner.quinticPolynomial 3 5 1 0 0 0 0 0 = 3 :=
  (quinticPolynomial_clamps 3 5 1 0 0 0 0 0 (by norm_num)).1 (by norm_num)

lemma isTargetSafe_eq_false_of_band (t : Fin 6 → ℝ)
    (hlim : ∀ i : Fin 6, ((jointLimits i).min : ℝ) ≤ t i ∧ t i ≤ ((jointLimits i).max : ℝ))
    (hband : abs (abs (t 4) - Real.pi / 2) < 0.1) :
    SafetyMonitor.isTargetSafe t = false := by
  have hsing : SafetyMonitor.isNearSingularity t = true := by
    simp only [SafetyMonitor.isNearSingularity]
    rw [if_pos hband]
  simp only [SafetyMonitor.isTargetSafe]
  rw [if_neg (by push_neg; intro i; exact ⟨(hlim i).1, (hlim i).2⟩), hsing]
  rfl

/-- Claim C5: every joint vector with all components inside their hard limits
and joint 5's magnitude within 0.1 rad of 90° is rejected by `isTargetSafe`
(it returns `false`, not merely a warning). -/
theorem isTargetSafe_wrist_band (t : Fin 6 → ℝ)
    (hlim : ∀ i : Fin 6, ((jointLimits i).min : ℝ) ≤ t i ∧ t i ≤ ((jointLimits i).max : ℝ))
    (hband : abs (abs (t 4) - Real.pi / 2) < 0.1) :
    SafetyMonitor.isTargetSafe t = false :=
  isTargetSafe_eq_false_of_band t hlim hband

/-- Witness for C5: joints `[1, 1, 1, 1, 1.5708, 1]` (all within hard limits,
shoulder proxy far from its band) are rejected. -/
theorem isTargetSafe_wrist_band_witness :
    SafetyMonitor.isTargetSafe ![1, 1, 1, 1, 1.5708, 1] = false :=
  isTargetSafe_wrist_band ![1, 1, 1, 1, 1.5708, 1]
    (by intro i; fin_cases i <;> constructor <;> norm_num [jointLimits])
    (by
      have h1 := Real.pi_gt_d6
      have h2 := Real.pi_lt_d2
      rw [show (![1, 1, 1, 1, 1.5708, 1] : Fin 6 → ℝ) 4 = 1.5708 from rfl,
        abs_of_pos (by norm_num : (0:ℝ) < 1.5708), abs_lt]
      constructor <;> linarith)

/-- Claim C10: the homing target `homePosition = [0, 0, π/2, 0, π/2, 0]` fails
the supervisor's pre-flight check: `isNearSingularity` flags it (joint 5 = π/2
lies exactly in the wrist band) and `isTargetSafe` returns `false`. -/
theorem homePosition_fails_isTargetSafe :
    SafetyMonitor.isTargetSafe MotionPlanner.homePosition = false ∧
    SafetyMonitor.isNearSingularity MotionPlanner.homePosition = true := by
  have h1 := Real.pi_gt_d6
  have h2 := Real.pi_lt_d2
  have hband : abs (abs (MotionPlanner.homePosition 4) - Real.pi / 2) < 0.1 := by
    rw [show MotionPlanner.homePosition 4 = Real.pi / 2 from rfl,
      abs_of_pos Real.pi_div_two_pos, sub_self, abs_zero]
    norm_num
  have hsing : SafetyMonitor.isNearSingularity MotionPlanner.homePosition = true := by
    simp only [SafetyMonitor.isNearSingularity]
    rw [if_pos hband]
  refine ⟨isTargetSafe_eq_false_of_band MotionPlanner.homePosition ?_ hband, hsing⟩
  intro i
  fin_cases i <;> constructor <;>
    norm_num [MotionPlanner.homePosition, jointLimits] <;> linarith

lemma mem_filterValidSolutions_bound (l : List (Fin 6 → ℝ)) :
    ∀ s ∈ Kinematics.filterValidSolutions l, ∀ i : Fin 6, |s i| ≤ 3.5 := by
  induction l with
  | nil =>
    intro s hs
    simp only [Kinematics.filterValidSolutions] at hs
    exact absurd hs (List.not_mem_nil s)
  | cons a rest ih =>
    intro s hs i
    by_cases hc : ∃ j : Fin 6, 3.5 < |a j|
    · rw [show Kinematics.filterValidSolutions (a :: rest)
          = Kinematics.filterValidSolutions rest by
        simp only [Kinematics.filterValidSolutions]; rw [if_pos hc]] at hs
      exact ih s hs i
    · rw [show Kinematics.filterValidSolutions (a :: rest)
          = a :: Kinematics.filterValidSolutions rest by
        simp only [Kinematics.filterValidSolutions]; rw [if_neg hc]] at hs
      rcases List.mem_cons.1 hs with h | h
      · subst h
        push_neg at hc
        exact hc i
      · exact ih s h i

lemma filterValidSolutions_forall (l : List (Fin 6 → ℝ)) :
    (Kinematics.filterValidSolutions l).Forall fun sol => ∀ i : Fin 6, |sol i| ≤ 3.5 := by
  rw [List.forall_iff_forall_mem]
  exact mem_filterValidSolutions_bound l

/-- C9 counterexample: the candidate `[3.5, 0, 0, 0, 0, 0]` exceeds 200°
(= 200·π/180 ≈ 3.4907 rad) in magnitude on joint 1 and yet passes
`filterValidSolutions` unrejected: the actual software bound is 3.5 rad,
which is wider than ±200°. -/
theorem filter_keeps_candidate_over_200deg :
    200 * Real.pi / 180 < abs ((![3.5, 0, 0, 0, 0, 0] : Fin 6 → ℝ) 0) ∧
    Kinematics.filterValidSolutions [![3.5, 0, 0, 0, 0, 0]]
      = [![3.5, 0, 0, 0, 0, 0]] := by
  constructor
  · rw [show (![3.5, 0, 0, 0, 0, 0] : Fin 6 → ℝ) 0 = 3.5 from rfl,
      abs_of_pos (by norm_num : (0:ℝ) < 3.5)]
    have := Real.pi_lt_d2
    linarith
  · simp only [Kinematics.filterValidSolutions]
    rw [if_neg]
    push_neg
    intro i
    fin_cases i <;> norm_num [abs_le]

/-- Claim C9 (amended): the filtering step's software bound is 3.5 rad
(≈ 200.5°), not 200°: a candidate is rejected whenever some joint exceeds
3.5 rad in magnitude, and every solution `inverseKinematics` returns has all
six joint values within ±3.5 rad. -/
theorem ik_solutions_within_bound (solutions : List (Fin 6 → ℝ)) (s : Fin 6 → ℝ)
    (targetPose : Kinematics.Pose) :
    ((∃ i : Fin 6, 3.5 < |s i|) → s ∉ Kinematics.filterValidSolutions solutions) ∧
    (Kinematics.inverseKinematics targetPose).Forall
      (fun sol => ∀ i : Fin 6, |sol i| ≤ 3.5) := by
  constructor
  · rintro ⟨i, hi⟩ hmem
    exact absurd (mem_filterValidSolutions_bound solutions s hmem i) (not_le.2 hi)
  · simp only [Kinematics.inverseKinematics]
    exact filterValidSolutions_forall _

/-- Witness for C9 (amended): `[4, 0, 0, 0, 0, 0]` (joint 1 beyond 3.5 rad)
is rejected by the filter. -/
theorem ik_solutions_within_bound_witness :
    ![4, 0, 0, 0, 0, 0] ∉ Kinematics.filterValidSolutions [![4, 0, 0, 0, 0, 0]] :=
  (ik_solutions_within_bound [![4, 0, 0, 0, 0, 0]] ![4, 0, 0, 0, 0, 0]
      ⟨0, 0, 0, 0, 0, 0⟩).1
    ⟨0, by rw [show (![4, 0, 0, 0, 0, 0] : Fin 6 → ℝ) 0 = 4 from rfl]; norm_num⟩

lemma sumLinkLengths_eq : Kinematics.sumLinkLengths = 1.241 := by
  simp only [Kinematics.sumLinkLengths, Fin.sum_univ_six]
  rw [show (Kinematics.DH_PARAMS 0).a = 0 from rfl,
    show (Kinematics.DH_PARAMS 0).d = 0.267 from rfl,
    show (Kinematics.DH_PARAMS 1).a = 0.290 from rfl,
    show (Kinematics.DH_PARAMS 1).d = 0 from rfl,
    show (Kinematics.DH_PARAMS 2).a = 0 from rfl,
    show (Kinematics.DH_PARAMS 2).d = 0.342 from rfl,
    show (Kinematics.DH_PARAMS 3).a = 0 from rfl,
    show (Kinematics.DH_PARAMS 3).d = 0 from rfl,
    show (Kinematics.DH_PARAMS 4).a = 0 from rfl,
    show (Kinematics.DH_PARAMS 4).d = 0.342 from rfl,
    show (Kinematics.DH_PARAMS 5).a = 0 from rfl,
    show (Kinematics.DH_PARAMS 5).d = 0 from rfl]
  norm_num

lemma wristCenter_poseToMatrix (p : Kinematics.Pose) :
    Kinematics.calculateWristCenter (Kinematics.poseToMatrix p)
      = ⟨p.x, p.y, p.z⟩ := by
  simp only [Kinematics.calculateWristCenter]
  rw [show (Kinematics.DH_PARAMS 5).d = 0 from rfl,
    show Kinematics.poseToMatrix p 0 3 = p.x from rfl,
    show Kinematics.poseToMatrix p 1 3 = p.y from rfl,
    show Kinematics.poseToMatrix p 2 3 = p.z from rfl]
  simp

lemma solveFirstThreeJoints_far_empty (w : Kinematics.Vec3)
    (hfar : Kinematics.sumLinkLengths < Real.sqrt (w.x ^ 2 + w.y ^ 2 + w.z ^ 2)) :
    Kinematics.solveFirstThreeJoints w = [] := by
  set u := Real.sqrt (w.x ^ 2 + w.y ^ 2 + w.z ^ 2) with hu
  have hS : u ^ 2 = w.x ^ 2 + w.y ^ 2 + w.z ^ 2 := Real.sq_sqrt (by positivity)
  have hun : 0 ≤ u := Real.sqrt_nonneg _
  rw [sumLinkLengths_eq] at hfar
  have hzu : w.z ≤ u := by
    have habs : |w.z| ≤ u := by
      rw [← Real.sqrt_sq_eq_abs]
      exact Real.sqrt_le_sqrt (by nlinarith [sq_nonneg w.x, sq_nonneg w.y])
    exact (le_abs_self w.z).trans habs
  have hr : Real.sqrt (w.x * w.x + w.y * w.y) * Real.sqrt (w.x * w.x + w.y * w.y)
      = w.x * w.x + w.y * w.y :=
    Real.mul_self_sqrt (add_nonneg (mul_self_nonneg _) (mul_self_nonneg _))
  have hD : 1 < |(Real.sqrt (w.x * w.x + w.y * w.y) * Real.sqrt (w.x * w.x + w.y * w.y) +
      (w.z - (Kinematics.DH_PARAMS 0).d) * (w.z - (Kinematics.DH_PARAMS 0).d) -
      (Kinematics.DH_PARAMS 1).a * (Kinematics.DH_PARAMS 1).a -
      (Kinematics.DH_PARAMS 2).d * (Kinematics.DH_PARAMS 2).d) /
      (2 * (Kinematics.DH_PARAMS 1).a * (Kinematics.DH_PARAMS 2).d)| := by
    rw [hr, show (Kinematics.DH_PARAMS 0).d = 0.267 from rfl,
      show (Kinematics.DH_PARAMS 1).a = 0.290 from rfl,
      show (Kinematics.DH_PARAMS 2).d = 0.342 from rfl]
    have hnum : (2 : ℝ) * 0.290 * 0.342
        < w.x * w.x + w.y * w.y + (w.z - 0.267) * (w.z - 0.267)
          - 0.290 * 0.290 - 0.342 * 0.342 := by
      nlinarith [hS, hzu, hfar, sq_nonneg (u - 1.241)]
    have hquot : 1 < (w.x * w.x + w.y * w.y + (w.z - 0.267) * (w.z - 0.267)
        - 0.290 * 0.290 - 0.342 * 0.342) / (2 * 0.290 * 0.342) := by
      rw [lt_div_iff₀ (by norm_num : (0:ℝ) < 2 * 0.290 * 0.342)]
      linarith
    exact lt_of_lt_of_le hquot (le_abs_self _)
  simp only [Kinematics.solveFirstThreeJoints, List.flatMap_cons, List.flatMap_nil,
    List.append_nil]
  rw [if_pos hD, if_pos hD]
  rfl

/-- Claim C4: for every target pose whose position is farther from the base
than the sum of the link lengths, the position sub-problem's argument `D`
falls outside `[-1, 1]` on every base-rotation branch and `inverseKinematics`
returns the empty set of candidate solutions. -/
theorem inverseKinematics_unreachable_empty (targetPose : Kinematics.Pose)
    (hfar : Kinematics.sumLinkLengths
      < Real.sqrt (targetPose.x ^ 2 + targetPose.y ^ 2 + targetPose.z ^ 2)) :
    Kinematics.inverseKinematics targetPose = [] := by
  simp only [Kinematics.inverseKinematics]
  rw [wristCenter_poseToMatrix,
    solveFirstThreeJoints_far_empty ⟨targetPose.x, targetPose.y, targetPose.z⟩ hfar]
  rfl

/-- Witness for C4: the pose at position `(2, 0, 0)` (distance 2 from the base,
beyond the 1.241 total link length) has no inverse-kinematics solutions. -/
theorem inverseKinematics_unreachable_empty_witness :
    Kinematics.inverseKinematics ⟨2, 0, 0, 0, 0, 0⟩ = [] :=
  inverseKinematics_unreachable_empty ⟨2, 0, 0, 0, 0, 0⟩ (by
    rw [sumLinkLengths_eq]
    show (1.241 : ℝ) < Real.sqrt ((2:ℝ) ^ 2 + (0:ℝ) ^ 2 + (0:ℝ) ^ 2)
    rw [show ((2:ℝ) ^ 2 + (0:ℝ) ^ 2 + (0:ℝ) ^ 2) = 2 ^ 2 by norm_num,
      Real.sqrt_sq (by norm_num : (0:ℝ) ≤ 2)]
    norm_num)

end RobotArm
